import Mathlib

/- A shallow embedding of src/BestAppsComponent.js: the uid generator, the
layered options store, the subscription registry, the mount orchestration
(connectedCallback / callWithEvent / warning), attribute-change scheduling,
and clone detection over a document of live elements with a heap of shared
data records. -/

namespace BestApps

/-- Values stored in option maps (the JS property values the claims need). -/
inductive JVal where
  | bool (b : Bool)
  | str (s : String)
deriving DecidableEq, Repr

/-- Property read on a JS object modelled as an association list. -/
def lookupAssoc {α : Type} : List (String × α) → String → Option α
  | [], _ => none
  | (k, v) :: rest, q => if k = q then some v else lookupAssoc rest q

/-- Property write on a JS object modelled as an association list:
overwrite the binding in place, or append a fresh one.  Keys are never
deleted, matching the source (no delete operation exists). -/
def setAssoc {α : Type} : List (String × α) → String → α → List (String × α)
  | [], q, v => [(q, v)]
  | (k, w) :: rest, q, v => if k = q then (q, v) :: rest else (k, w) :: setAssoc rest q v

/-- Mask applied to each random byte in generateUid (0x3d = 61). -/
def MASK : Nat := 0x3d

/-- Lowercase letters of the generateUid charset, as in the source. -/
def LETTERS : String := "abcdefghijklmnopqrstuvwxyz"

/-- Digit symbols of the generateUid charset, as in the source
(note the source order: 1..9 then 0). -/
def NUMBERS : String := "1234567890"

/-- The 62-symbol charset of generateUid: digits, lowercase, then the
uppercase of LETTERS (the source's toUpperCase call, taken per
character). -/
def charset : List Char := (NUMBERS ++ LETTERS).toList ++ LETTERS.toList.map Char.toUpper

/-- generateUid over an explicit list of bytes drawn from the entropy
source: the source's reduce appending charset[byte AND MASK] per byte. -/
def generateUid (bytes : List Nat) : String :=
  String.mk (bytes.foldl (fun acc byte => acc ++ [charset.getD (byte &&& MASK) '?']) [])

/-- The layered options record of one instance: an own map created by
Object.create over the defaults map (the constructor's defaultOptions). -/
structure OptStore where
  own : List (String × JVal)
  defaults : List (String × JVal)
deriving DecidableEq, Repr

/-- The defaults installed by the constructor: debug := false. -/
def defaultOptions : List (String × JVal) := [("debug", JVal.bool false)]

/-- Options record of a freshly constructed instance. -/
def newInstanceOptions : OptStore := { own := [], defaults := defaultOptions }

/-- JS property lookup through the Object.create chain: the own map
shadows the defaults map. -/
def readOption (s : OptStore) (k : String) : Option JVal :=
  match lookupAssoc s.own k with
  | some v => some v
  | none => lookupAssoc s.defaults k

/-- setOption of the source: a plain property write, which always lands
on the own (instance-level) map. -/
def setOption (s : OptStore) (k : String) (v : JVal) : OptStore :=
  { s with own := setAssoc s.own k v }

/-- setOption applied to the first of two sibling instances: the write is
a function of that instance's record only, the sibling is untouched. -/
def setOptionFst (w : OptStore × OptStore) (k : String) (v : JVal) : OptStore × OptStore :=
  (setOption w.1 k v, w.2)

/-- getSubscriptions of the source: the ordered callback list for an
action, or the empty list.  Callbacks are identified by numeric tokens. -/
def getSubscriptions (subs : List (String × List Nat)) (action : String) : List Nat :=
  (lookupAssoc subs action).getD []

/-- subscribe of the source: fetch the list for the action, push the
callback at its end, store the list back.  No de-duplication. -/
def subscribe (subs : List (String × List Nat)) (action : String) (cb : Nat) :
    List (String × List Nat) :=
  setAssoc subs action (getSubscriptions subs action ++ [cb])

/-- The dispatch loop of sendSubscriptionEvent: invoke each callback in
order with the payload.  `run` gives each callback's behaviour; a raised
exception stops the loop and propagates (nothing is caught here).  On
success the result is the ordered list of performed invocations. -/
def runCallbacks {P E : Type} (run : Nat → P → Except E PUnit) :
    List Nat → P → Except E (List (Nat × P))
  | [], _ => .ok []
  | cb :: rest, p =>
    match run cb p with
    | .error err => .error err
    | .ok _ =>
      match runCallbacks run rest p with
      | .error err => .error err
      | .ok t => .ok ((cb, p) :: t)

/-- sendSubscriptionEvent of the source: fetch the callback list for the
action and invoke every callback synchronously, in registration order,
passing the payload.  Callbacks are modelled as registry-independent
actions (they do not mutate the registry during dispatch). -/
def sendSubscriptionEvent {P E : Type} (run : Nat → P → Except E PUnit)
    (subs : List (String × List Nat)) (action : String) (p : P) :
    Except E (List (Nat × P)) :=
  runCallbacks run (getSubscriptions subs action) p

/-- Stage events published during a mount, with the action tag carried by
an error event's payload. -/
inductive Ev where
  | connecting
  | propsSet
  | elementsSet
  | rendered
  | connected
  | error (action : String)
deriving DecidableEq, Repr

/-- The per-instance data a mount stage hook may read or write: host-tree
attributes, the loaded field, and the immutable identity. -/
structure Core where
  attrs : List (String × String)
  loaded : Bool
  guid : String
deriving DecidableEq, Repr

/-- An instance's state as seen by the orchestrator: its core plus the
ordered log of events published on it. -/
structure MState where
  core : Core
  events : List Ev
deriving DecidableEq, Repr

/-- callWithEvent of the source: run the hook; on success publish the
stage event; on failure, warning publishes an error event tagged with
action callWithEvent and the failure is re-raised to the caller. -/
def callWithEvent (hook : Core → Except Unit Core) (event : Ev) (s : MState) :
    Except MState MState :=
  match hook s.core with
  | .ok c => .ok { core := c, events := s.events ++ [event] }
  | .error _ => .error { core := s.core, events := s.events ++ [Ev.error "callWithEvent"] }

/-- The default connected-stage hook: set the loaded attribute to the
string "loaded" and the loaded field to true. -/
def initConnected (c : Core) : Except Unit Core :=
  .ok { c with attrs := setAssoc c.attrs "loaded" "loaded", loaded := true }

/-- connectedCallback of the source, parameterised by its four stage
hooks.  The connecting event is published first; the three chained mount
stages follow; on success the connected stage runs last.  A failure in a
chained stage stops the mount with only the callWithEvent error publish:
the chain runs inside a promise constructor whose executor is an async
function, so the executor's rejection is never delivered to the outer
promise, which stays pending forever, and neither the then branch nor the
catch branch (the warning tagged connectedCallback) ever runs for such a
failure.  Only a failure of the connected stage itself reaches that
catch, adding the error event tagged connectedCallback. -/
def connectedCallback (p e r ic : Core → Except Unit Core) (s : MState) : MState :=
  match callWithEvent p Ev.propsSet { core := s.core, events := s.events ++ [Ev.connecting] } with
  | .error sE => sE
  | .ok s2 =>
    match callWithEvent e Ev.elementsSet s2 with
    | .error sE => sE
    | .ok s3 =>
      match callWithEvent r Ev.rendered s3 with
      | .error sE => sE
      | .ok s4 =>
        match callWithEvent ic Ev.connected s4 with
        | .error sE => { sE with events := sE.events ++ [Ev.error "connectedCallback"] }
        | .ok s5 => s5

/-- A hook that succeeds and leaves the core unchanged (the default
initProps and render hooks of the source are empty). -/
def idHook (c : Core) : Except Unit Core := .ok c

/-- A hook that throws, modelling an overridden hook that fails. -/
def failHook (_ : Core) : Except Unit Core := .error ()

/-- A fresh core for concrete evaluations. -/
def c0 : Core := { attrs := [], loaded := false, guid := "g" }

/-- Recognises an error event in a published event log. -/
def isErrorEv : Ev → Bool
  | .error _ => true
  | _ => false

/-- The payload handed to the attribute-change entry point. -/
structure AttrChange where
  name : String
  oldValue : Option String
  newValue : Option String
deriving DecidableEq, Repr

/-- Events published by the attribute-change path. -/
inductive AEv where
  | attributeChanged (c : AttrChange)
  | changed (c : AttrChange)
deriving DecidableEq, Repr

/-- Instance state for the attribute-change path: options, the published
event log, and the queue of deferred timer tasks (setTimeout callbacks),
drained in order after the synchronous call stack returns. -/
structure AState where
  options : List (String × JVal)
  events : List AEv
  timers : List AttrChange
deriving DecidableEq, Repr

/-- JS truthiness of an attribute value: null and the empty string are
falsy, every other string is truthy. -/
def truthy : Option String → Bool
  | some s => !(s == "")
  | none => false

/-- processAttributeChanged of the source: when the debug attribute gets
a truthy new value, set the debug option to true; then schedule the
deferred changed publish for this mutation on the timer queue. -/
def processAttributeChanged (s : AState) (c : AttrChange) : AState :=
  { s with
    options :=
      if c.name == "debug" && truthy c.newValue then
        setAssoc s.options "debug" (JVal.bool true)
      else s.options,
    timers := s.timers ++ [c] }

/-- attributeChangedCallback of the source: run the hook through
callWithEvent, which publishes the attribute.changed event for this
mutation. -/
def attributeChangedCallback (s : AState) (name : String)
    (oldValue newValue : Option String) : AState :=
  { processAttributeChanged s { name := name, oldValue := oldValue, newValue := newValue } with
    events := s.events ++
      [AEv.attributeChanged { name := name, oldValue := oldValue, newValue := newValue }] }

/-- One timer task firing: processChanged is an empty hook, so
callWithEvent publishes the changed event with the mutation payload. -/
def runTimer (s : AState) (c : AttrChange) : AState :=
  { s with events := s.events ++ [AEv.changed c] }

/-- The macro tick after the synchronous call stack: run every queued
timer task in scheduling order. -/
def drainTimers (s : AState) : AState :=
  s.timers.foldl runTimer { s with timers := [] }

/-- The subscriptions-plus-options data record held behind an instance's
data reference (the JS object assigned to the underscore-data field). -/
structure DataRec where
  options : List (String × JVal)
  subs : List (String × List Nat)
deriving DecidableEq, Repr, Inhabited

/-- One live element of the host tree: its immutable own identity, the
clone marker field, its attributes and classes, and a reference into the
document's heap of data records. -/
structure Element where
  guid : String
  clonedGuid : Option String
  attrs : List (String × String)
  classes : List String
  dataRef : Nat
deriving DecidableEq, Repr, Inhabited

/-- The host document: the live elements in tree order, and the heap of
data records they reference (references model JS object identity). -/
structure Doc where
  elems : List Element
  store : List DataRec
deriving DecidableEq, Repr

/-- rootClass of the source. -/
def rootClass : String := "ba-component"

/-- Whether an element matches the clone-detection selector for a
declared identity: it carries the root class and its guid attribute
equals that identity.  The selector does not exclude the querying
instance itself. -/
def matchesSelector (el : Element) (g : String) : Bool :=
  el.classes.contains rootClass && (lookupAssoc el.attrs "guid" == some g)

/-- querySelector over a list of live elements: index of the first
element, in tree order, matching the selector. -/
def querySelectorAux (g : String) : List Element → Option Nat
  | [] => none
  | el :: rest =>
    if matchesSelector el g then some 0 else (querySelectorAux g rest).map (· + 1)

/-- document.querySelector for the clone-detection selector. -/
def querySelector (d : Doc) (g : String) : Option Nat :=
  querySelectorAux g d.elems

/-- The mutations checkClone performs on the instance when it fires: the
clone-marker attribute and field are set to the old declared identity,
the guid attribute is overwritten with the instance's own identity, and
the default clone hook replaces the instance's data reference with the
found element's (setData of fromElement.getData). -/
def cloneUpdate (el : Element) (g : String) (ref : Nat) : Element :=
  { el with
    attrs := setAssoc (setAssoc el.attrs "cloned-guid" g) "guid" el.guid,
    clonedGuid := some g,
    dataRef := ref }

/-- checkClone of the source, run on the element at index i.  Returns the
updated document and the list of (event, payload index) publishes. -/
def checkClone (d : Doc) (i : Nat) : Doc × List (String × Nat) :=
  match lookupAssoc (d.elems.getD i default).attrs "guid" with
  | none => (d, [])
  | some g =>
    if g = "" then (d, [])
    else
      match querySelector d g with
      | none => (d, [])
      | some j =>
        if (d.elems.getD i default).guid ≠ g then
          ({ d with
              elems := d.elems.set i
                (cloneUpdate (d.elems.getD i default) g ((d.elems.getD j default).dataRef)) },
           [("cloned", j)])
        else (d, [])

/-- The default clone hook in isolation, on instance i with found element
j: this.setData(fromElement.getData()), i.e. instance i's data reference
becomes element j's data reference. -/
def clonedCallback (d : Doc) (i j : Nat) : Doc :=
  { d with
    elems := d.elems.set i
      { d.elems.getD i default with dataRef := (d.elems.getD j default).dataRef } }

/-- The data record an element currently reads through its reference. -/
def getDataOf (d : Doc) (i : Nat) : DataRec :=
  d.store.getD (d.elems.getD i default).dataRef default

/-- setOption invoked on the element at index i: mutate the options of
the record behind its data reference, in place on the heap. -/
def setOptionOnElem (d : Doc) (i : Nat) (k : String) (v : JVal) : Doc :=
  { d with
    store := d.store.set (d.elems.getD i default).dataRef
      { d.store.getD (d.elems.getD i default).dataRef default with
        options := setAssoc
          (d.store.getD (d.elems.getD i default).dataRef default).options k v } }

/-- A document holding a single live instance whose declared guid
attribute X is stale: no other element carries X, and the instance's own
identity is Y. -/
def cexDoc : Doc :=
  { elems := [{ guid := "Y", clonedGuid := none, attrs := [("guid", "X")],
                classes := ["ba-component"], dataRef := 0 }],
    store := [{ options := [], subs := [] }] }

/-- A document holding an original instance A (index 0) and a clone B
(index 1), with separate data records on the heap. -/
def docAB : Doc :=
  { elems := [{ guid := "A", clonedGuid := none, attrs := [("guid", "X")],
                classes := ["ba-component"], dataRef := 0 },
              { guid := "B", clonedGuid := none, attrs := [("guid", "X")],
                classes := ["ba-component"], dataRef := 1 }],
    store := [{ options := [("k", JVal.str "a")], subs := [] },
              { options := [], subs := [] }] }

/-- A callback behaviour that always succeeds, for concrete runs. -/
def runOk : Nat → Nat → Except String PUnit := fun _ _ => .ok PUnit.unit

/-- A registry where the same callback is subscribed twice to one event. -/
def subsDup : List (String × List Nat) := subscribe (subscribe [] "evt" 7) "evt" 7

/-- A fresh attribute-change state for concrete runs. -/
def a0 : AState := { options := [], events := [], timers := [] }

/-- An attribute-change state whose debug option is already true. -/
def dbgState : AState := { options := [("debug", JVal.bool true)], events := [], timers := [] }

/-- Reading back a key just written always yields the written value. -/
theorem lookupAssoc_setAssoc_self {α : Type} (l : List (String × α)) (k : String) (v : α) :
    lookupAssoc (setAssoc l k v) k = some v := by
  induction l with
  | nil => simp [setAssoc, lookupAssoc]
  | cons hd t ih =>
    obtain ⟨k1, v1⟩ := hd
    by_cases hk : k1 = k
    · subst hk
      simp [setAssoc, lookupAssoc]
    · simp [setAssoc, lookupAssoc, hk, ih]

/-- Writing one key leaves every other key's binding unchanged. -/
theorem lookupAssoc_setAssoc_ne {α : Type} (l : List (String × α)) (k q : String) (v : α)
    (h : k ≠ q) : lookupAssoc (setAssoc l k v) q = lookupAssoc l q := by
  induction l with
  | nil => simp [setAssoc, lookupAssoc, h]
  | cons hd t ih =>
    obtain ⟨k1, v1⟩ := hd
    by_cases hk : k1 = k
    · subst hk
      simp [setAssoc, lookupAssoc, h, ih]
    · simp [setAssoc, lookupAssoc, hk, ih]

/-- getD after set at the written index. -/
theorem getD_set_self {α : Type} [Inhabited α] (l : List α) (i : Nat) (x : α)
    (h : i < l.length) : (l.set i x).getD i default = x := by
  induction l generalizing i with
  | nil => simp at h
  | cons hd t ih =>
    cases i with
    | zero => rfl
    | succ n => exact ih n (Nat.lt_of_succ_lt_succ h)

/-- getD after set at a different index. -/
theorem getD_set_ne {α : Type} [Inhabited α] (l : List α) (i j : Nat) (x : α)
    (h : j ≠ i) : (l.set i x).getD j default = l.getD j default := by
  induction l generalizing i j with
  | nil => rfl
  | cons hd t ih =>
    cases i with
    | zero =>
      cases j with
      | zero => exact absurd rfl h
      | succ m => rfl
    | succ n =>
      cases j with
      | zero => rfl
      | succ m => exact ih n m (fun hc => h (by rw [hc]))

/-- A fold that appends one image per element is a map. -/
theorem foldl_append_singleton {α β : Type} (f : α → β) (l : List α) :
    ∀ acc : List β, l.foldl (fun a b => a ++ [f b]) acc = acc ++ l.map f := by
  induction l with
  | nil => intro acc; simp
  | cons hd t ih => intro acc; simp [ih, List.append_assoc]

/-- When an element of the list matches the selector, querySelector finds
something (possibly an earlier element). -/
theorem querySelectorAux_ne_none (g : String) (l : List Element) (i : Nat)
    (hi : i < l.length) (hm : matchesSelector (l.getD i default) g = true) :
    querySelectorAux g l ≠ none := by
  induction l generalizing i with
  | nil => simp at hi
  | cons el t ih =>
    by_cases h : matchesSelector el g
    · simp [querySelectorAux, h]
    · cases i with
      | zero => exact absurd hm h
      | succ n =>
        have hne := ih n (Nat.lt_of_succ_lt_succ hi) hm
        simp only [querySelectorAux, h, if_neg, Bool.false_eq_true, if_false]
        cases hq : querySelectorAux g t with
        | none => exact absurd hq hne
        | some m => simp

/-- A successful hook makes callWithEvent publish the stage event on the
hook's output state. -/
theorem callWithEvent_ok (hook : Core → Except Unit Core) (event : Ev) (s : MState)
    (c : Core) (h : hook s.core = .ok c) :
    callWithEvent hook event s = .ok { core := c, events := s.events ++ [event] } := by
  simp [callWithEvent, h]

/-- A failing hook makes callWithEvent publish the error event tagged
callWithEvent and re-raise. -/
theorem callWithEvent_fail (hook : Core → Except Unit Core) (event : Ev) (s : MState)
    (h : hook s.core = .error ()) :
    callWithEvent hook event s =
      .error { core := s.core, events := s.events ++ [Ev.error "callWithEvent"] } := by
  simp [callWithEvent, h]

/-- The successful mount chain: each stage event is published right after
its hook, in stage order, with nothing else interleaved. -/
theorem connectedCallback_ok (p e r ic : Core → Except Unit Core) (s : MState)
    (c1 c2 c3 c4 : Core) (hp : p s.core = .ok c1) (he : e c1 = .ok c2)
    (hr : r c2 = .ok c3) (hic : ic c3 = .ok c4) :
    connectedCallback p e r ic s =
      { core := c4,
        events := s.events ++
          [Ev.connecting, Ev.propsSet, Ev.elementsSet, Ev.rendered, Ev.connected] } := by
  simp only [connectedCallback, callWithEvent, hp, he, hr, hic]
  simp [List.append_assoc]

/-- C1: for every fresh instance whose mount hooks succeed, invoking the
host attach entry point (connectedCallback) publishes exactly the event
sequence [connecting, props.set, elements.set, rendered, connected], in
that order, with no other stage event interleaved and the connected event
published last. -/
theorem C1_mount_stage_order (p e r ic : Core → Except Unit Core) (s : MState)
    (c1 c2 c3 c4 : Core) (hp : p s.core = .ok c1) (he : e c1 = .ok c2)
    (hr : r c2 = .ok c3) (hic : ic c3 = .ok c4) :
    connectedCallback p e r ic s =
      { core := c4,
        events := s.events ++
          [Ev.connecting, Ev.propsSet, Ev.elementsSet, Ev.rendered, Ev.connected] } :=
  connectedCallback_ok p e r ic s c1 c2 c3 c4 hp he hr hic

/-- Witness for C1 at the default (empty) hooks on a fresh instance. -/
theorem C1_mount_stage_order_witness :
    connectedCallback idHook idHook idHook idHook { core := c0, events := [] } =
      { core := c0,
        events := [Ev.connecting, Ev.propsSet, Ev.elementsSet, Ev.rendered, Ev.connected] } :=
  C1_mount_stage_order idHook idHook idHook idHook { core := c0, events := [] }
    c0 c0 c0 c0 rfl rfl rfl rfl

/-- C2 counterexample: with a props hook that throws, the mount publishes
connecting and then exactly one error event, whose action is
callWithEvent — not connectedCallback as the claim states.  The chained
stages run inside an async promise executor, so their rejection never
reaches the top-level catch that would add the connectedCallback error. -/
theorem C2_error_action_cex :
    (connectedCallback failHook idHook idHook initConnected
        { core := c0, events := [] }).events
      = [Ev.connecting, Ev.error "callWithEvent"]
    ∧ (connectedCallback failHook idHook idHook initConnected
        { core := c0, events := [] }).events.filter isErrorEv
      = [Ev.error "callWithEvent"]
    ∧ ¬ ((connectedCallback failHook idHook idHook initConnected
        { core := c0, events := [] }).events.filter isErrorEv
      = [Ev.error "connectedCallback"]) := by
  refine ⟨rfl, rfl, ?_⟩
  decide

/-- C2 (amended): for every instance whose props hook throws during
mount, none of the events elements.set, rendered, connected is ever
published, the failure is not re-surfaced past the top-level attach entry
point (connectedCallback returns normally), and the error event is
published exactly once, with action callWithEvent. -/
theorem C2_props_failure_abort (p e r ic : Core → Except Unit Core) (s : MState)
    (hp : p s.core = .error ()) :
    connectedCallback p e r ic s =
      { core := s.core, events := s.events ++ [Ev.connecting, Ev.error "callWithEvent"] } := by
  simp [connectedCallback, callWithEvent, hp]

/-- Witness for C2 (amended) at a concrete throwing props hook. -/
theorem C2_props_failure_abort_witness :
    connectedCallback failHook idHook idHook initConnected { core := c0, events := [] } =
      { core := c0, events := [Ev.connecting, Ev.error "callWithEvent"] } :=
  C2_props_failure_abort failHook idHook idHook initConnected
    { core := c0, events := [] } rfl

/-- C10: on every mount whose three stages succeed, the default
connected-stage hook sets the loaded attribute to the string "loaded"
and the loaded field to true; the hook runs before the connected event is
published (callWithEvent publishes on the hook's output state), so a
connected subscriber observes the instance already marked loaded. -/
theorem C10_loaded_before_connected (p e r : Core → Except Unit Core) (s : MState)
    (c1 c2 c3 : Core) (hp : p s.core = .ok c1) (he : e c1 = .ok c2)
    (hr : r c2 = .ok c3) :
    connectedCallback p e r initConnected s =
      { core := { c3 with attrs := setAssoc c3.attrs "loaded" "loaded", loaded := true },
        events := s.events ++
          [Ev.connecting, Ev.propsSet, Ev.elementsSet, Ev.rendered, Ev.connected] }
    ∧ lookupAssoc (setAssoc c3.attrs "loaded" "loaded") "loaded" = some "loaded"
    ∧ (∀ evs : List Ev,
        callWithEvent initConnected Ev.connected { core := c3, events := evs } =
          Except.ok
            { core := { c3 with attrs := setAssoc c3.attrs "loaded" "loaded", loaded := true },
              events := evs ++ [Ev.connected] }) := by
  refine ⟨?_, lookupAssoc_setAssoc_self c3.attrs "loaded" "loaded", ?_⟩
  · exact connectedCallback_ok p e r initConnected s c1 c2 c3 _ hp he hr rfl
  · intro evs
    exact callWithEvent_ok initConnected Ev.connected { core := c3, events := evs } _ rfl

/-- Witness for C10 with empty first three hooks on a fresh instance. -/
theorem C10_loaded_before_connected_witness :
    connectedCallback idHook idHook idHook initConnected { core := c0, events := [] } =
      { core := { c0 with attrs := setAssoc c0.attrs "loaded" "loaded", loaded := true },
        events := [Ev.connecting, Ev.propsSet, Ev.elementsSet, Ev.rendered, Ev.connected] }
    ∧ lookupAssoc (setAssoc c0.attrs "loaded" "loaded") "loaded" = some "loaded" :=
  ⟨(C10_loaded_before_connected idHook idHook idHook { core := c0, events := [] }
      c0 c0 c0 rfl rfl rfl).1,
   (C10_loaded_before_connected idHook idHook idHook { core := c0, events := [] }
      c0 c0 c0 rfl rfl rfl).2.1⟩

/-- C3 counterexample: in a document where no element other than the
instance itself carries the declared identity X, checkClone nevertheless
runs the clone procedure — the host-tree query matches the instance's own
node (it carries the root class and the declared guid attribute), the
cloned event is published with the instance itself as payload, and the
attributes are rewritten — contradicting the claim that nothing happens
when no other live instance carries the identity. -/
theorem C3_self_match_cex :
    (∀ j, j < cexDoc.elems.length → j ≠ 0 →
        matchesSelector (cexDoc.elems.getD j default) "X" = false)
    ∧ (checkClone cexDoc 0).2 = [("cloned", 0)]
    ∧ ¬ ((checkClone cexDoc 0).1 = cexDoc) := by
  refine ⟨?_, rfl, by decide⟩
  intro j hj hne
  exact absurd (Nat.lt_one_iff.mp hj) hne

/-- C3 (amended): when the persisted declared identity is present,
non-empty and differs from the instance's own identity, the clone
procedure executes if and only if the host-tree query finds some live
element of the component kind carrying that identity — the first such
element in tree order, which may be the instance's own node, since the
selector does not exclude it; that found element is the hook input and
the cloned payload.  Only when the query finds nothing does checkClone
leave the document untouched and publish nothing; and whenever the
instance itself is live with the root class and the declared attribute,
the query necessarily finds something, so the procedure executes even if
no other live instance carries the identity. -/
theorem C3_clone_procedure (d : Doc) (i : Nat) (g : String)
    (hg : lookupAssoc (d.elems.getD i default).attrs "guid" = some g)
    (hne : g ≠ "") (hdiff : (d.elems.getD i default).guid ≠ g) :
    (∀ j, querySelector d g = some j →
      checkClone d i =
        ({ d with
            elems := d.elems.set i
              (cloneUpdate (d.elems.getD i default) g ((d.elems.getD j default).dataRef)) },
         [("cloned", j)]))
    ∧ (querySelector d g = none → checkClone d i = (d, []))
    ∧ (i < d.elems.length → matchesSelector (d.elems.getD i default) g = true →
        querySelector d g ≠ none) := by
  refine ⟨?_, ?_, ?_⟩
  · intro j hj
    simp only [checkClone, hg, hj, if_neg hne, if_pos hdiff]
  · intro hj
    simp only [checkClone, hg, hj, if_neg hne]
  · intro hi hm
    exact querySelectorAux_ne_none g d.elems i hi hm

/-- Witness for C3 (amended) on the single-instance document: the query
finds the instance itself and the procedure fires. -/
theorem C3_clone_procedure_witness :
    checkClone cexDoc 0 =
      ({ cexDoc with
          elems := cexDoc.elems.set 0
            (cloneUpdate (cexDoc.elems.getD 0 default) "X"
              ((cexDoc.elems.getD 0 default).dataRef)) },
       [("cloned", 0)]) :=
  (C3_clone_procedure cexDoc 0 "X" rfl (by decide) (by decide)).1 0 rfl

/-- After the default clone hook, the clone and the found element hold
the same data reference. -/
theorem clonedCallback_ref_eq (d : Doc) (i j : Nat) (hi : i < d.elems.length) :
    ((clonedCallback d i j).elems.getD i default).dataRef
      = ((clonedCallback d i j).elems.getD j default).dataRef := by
  by_cases hij : j = i
  · subst hij; rfl
  · have h1 : (clonedCallback d i j).elems
        = d.elems.set i
            { d.elems.getD i default with dataRef := (d.elems.getD j default).dataRef } := rfl
    rw [h1, getD_set_self d.elems i _ hi, getD_set_ne d.elems i j _ hij]

/-- C4 counterexample: after the default clone hook runs on clone B with
original A, B's data record is indeed identical by value to A's, but a
subsequent write to A's data record changes B's data record as well —
the hand-off is an aliased reference, not a deep copy, contradicting the
claim that B's record stays unchanged under writes to A's. -/
theorem C4_deep_handoff_cex :
    getDataOf (clonedCallback docAB 1 0) 1 = getDataOf (clonedCallback docAB 1 0) 0
    ∧ ¬ (getDataOf (setOptionOnElem (clonedCallback docAB 1 0) 0 "k" (JVal.str "new")) 1
        = getDataOf (clonedCallback docAB 1 0) 1) := by
  exact ⟨rfl, by decide⟩

/-- C4 (amended): after the default clone hook runs on clone B with
original A as input, B's data record is A's record by reference: the two
records are identical by value, and they remain identical after every
subsequent write to A's record — the two instances share one mutable
record (a shallow aliasing hand-off, not a deep copy). -/
theorem C4_clone_aliases (d : Doc) (i j : Nat) (hi : i < d.elems.length) :
    getDataOf (clonedCallback d i j) i = getDataOf (clonedCallback d i j) j
    ∧ ∀ (k : String) (v : JVal),
        getDataOf (setOptionOnElem (clonedCallback d i j) j k v) i
          = getDataOf (setOptionOnElem (clonedCallback d i j) j k v) j := by
  have href := clonedCallback_ref_eq d i j hi
  constructor
  · unfold getDataOf
    rw [href]
  · intro k v
    unfold getDataOf
    have he : (setOptionOnElem (clonedCallback d i j) j k v).elems
        = (clonedCallback d i j).elems := rfl
    rw [he, href]

/-- Witness for C4 (amended) on the two-instance document. -/
theorem C4_clone_aliases_witness :
    getDataOf (clonedCallback docAB 1 0) 1 = getDataOf (clonedCallback docAB 1 0) 0
    ∧ getDataOf (setOptionOnElem (clonedCallback docAB 1 0) 0 "k" (JVal.str "w")) 1
        = getDataOf (setOptionOnElem (clonedCallback docAB 1 0) 0 "k" (JVal.str "w")) 0 :=
  ⟨(C4_clone_aliases docAB 1 0 (by decide)).1,
   (C4_clone_aliases docAB 1 0 (by decide)).2 "k" (JVal.str "w")⟩

/-- When every callback succeeds, the dispatch loop performs exactly one
invocation per registered callback, in order, with the payload. -/
theorem runCallbacks_ok {P E : Type} (run : Nat → P → Except E PUnit) (p : P)
    (cbs : List Nat) (h : ∀ cb ∈ cbs, run cb p = .ok PUnit.unit) :
    runCallbacks run cbs p = .ok (cbs.map (fun cb => (cb, p))) := by
  induction cbs with
  | nil => rfl
  | cons cb rest ih =>
    have h1 : run cb p = .ok PUnit.unit := h cb (by simp)
    have h2 := ih (fun c hc => h c (by simp [hc]))
    simp [runCallbacks, h1, h2]

/-- The first callback exception stops the dispatch loop and propagates
uncaught to the caller. -/
theorem runCallbacks_fail {P E : Type} (run : Nat → P → Except E PUnit) (p : P)
    (pre : List Nat) (cb : Nat) (post : List Nat) (err : E)
    (hpre : ∀ c ∈ pre, run c p = .ok PUnit.unit) (hcb : run cb p = .error err) :
    runCallbacks run (pre ++ cb :: post) p = .error err := by
  induction pre with
  | nil => simp [runCallbacks, hcb]
  | cons c rest ih =>
    have h1 : run c p = .ok PUnit.unit := hpre c (by simp)
    have h2 := ih (fun x hx => hpre x (by simp [hx]))
    simp [runCallbacks, h1, h2]

/-- C5: publish invokes exactly the callbacks registered for the event
name at the moment of the call, in registration order, passing the
payload to each (duplicate registrations are each invoked, since the
registered list may repeat a callback); a callback's exception is not
caught by the registry but propagates to publish's caller; and subscribe
appends to the registered list. -/
theorem C5_publish_dispatch {P E : Type} (run : Nat → P → Except E PUnit)
    (subs : List (String × List Nat)) (action : String) (p : P) :
    ((∀ cb ∈ getSubscriptions subs action, run cb p = .ok PUnit.unit) →
      sendSubscriptionEvent run subs action p
        = .ok ((getSubscriptions subs action).map (fun cb => (cb, p))))
    ∧ (∀ (pre : List Nat) (cb : Nat) (post : List Nat) (err : E),
        getSubscriptions subs action = pre ++ cb :: post →
        (∀ c ∈ pre, run c p = .ok PUnit.unit) → run cb p = .error err →
        sendSubscriptionEvent run subs action p = .error err)
    ∧ (∀ cb, getSubscriptions (subscribe subs action cb) action
        = getSubscriptions subs action ++ [cb]) := by
  refine ⟨?_, ?_, ?_⟩
  · intro h
    exact runCallbacks_ok run p _ h
  · intro pre cb post err hsplit hpre hcb
    unfold sendSubscriptionEvent
    rw [hsplit]
    exact runCallbacks_fail run p pre cb post err hpre hcb
  · intro cb
    show (lookupAssoc (setAssoc subs action (getSubscriptions subs action ++ [cb])) action).getD []
        = getSubscriptions subs action ++ [cb]
    rw [lookupAssoc_setAssoc_self]
    rfl

/-- Witness for C5: a duplicate registration is invoked twice, in order,
with the payload. -/
theorem C5_publish_dispatch_witness :
    sendSubscriptionEvent runOk subsDup "evt" 5 = .ok [(7, 5), (7, 5)] :=
  (C5_publish_dispatch runOk subsDup "evt" 5).1 (fun _ _ => rfl)

/-- Masking twice with MASK is the same as masking once. -/
theorem and_MASK_idem (b : Nat) : (b &&& MASK) &&& MASK = b &&& MASK := by
  apply Nat.eq_of_testBit_eq
  intro i
  simp [Nat.testBit_and, Bool.and_assoc]

set_option maxRecDepth 8000 in
/-- C6 counterexample: the charset symbol at index 2 (the digit 3) is not
attainable for any byte value, because the mask 0x3d has bit 1 clear —
so not every one of the 62 alphabet symbols is attainable, contradicting
the claim. -/
theorem C6_mask_gap_cex :
    (∀ b, b < 256 → charset.getD (b &&& MASK) '?' ≠ '3')
    ∧ charset.getD 2 '?' = '3'
    ∧ (∀ b, b < 256 → generateUid [b] ≠ String.mk ['3']) := by
  refine ⟨by decide, by decide, by decide⟩

/-- C6 (amended): for every 12-byte input, generateUid returns a string
of exactly 12 symbols, each obtained by indexing the 62-symbol charset at
index byte AND 0x3d; the index is always at most 61, hence in bounds; but
only the 32 indices left fixed by the mask are attainable from a byte
(the mask's bit 1 is clear), so identities over uniformly random bytes
range over 32^12, not 62^12, possibilities. -/
theorem C6_uid_properties (bytes : List Nat) (h : bytes.length = 12) :
    (generateUid bytes).length = 12
    ∧ (generateUid bytes).data = bytes.map (fun b => charset.getD (b &&& MASK) '?')
    ∧ (∀ b : Nat, b &&& MASK < charset.length)
    ∧ charset.length = 62
    ∧ (∀ n : Nat, (∃ b, b < 256 ∧ b &&& MASK = n) ↔ (n < 62 ∧ n &&& MASK = n))
    ∧ ((Finset.range 62).filter (fun n => n &&& MASK = n)).card = 32 := by
  have hlen62 : charset.length = 62 := by decide
  have hdata : (generateUid bytes).data
      = bytes.map (fun b => charset.getD (b &&& MASK) '?') := by
    show bytes.foldl (fun acc byte => acc ++ [charset.getD (byte &&& MASK) '?']) [] = _
    rw [foldl_append_singleton]
    simp
  have hmaskval : MASK = 61 := rfl
  have hbound : ∀ b : Nat, b &&& MASK < charset.length := by
    intro b
    have h1 : b &&& MASK ≤ MASK := Nat.and_le_right
    omega
  refine ⟨?_, hdata, hbound, hlen62, ?_, by decide⟩
  · show (generateUid bytes).data.length = 12
    rw [hdata, List.length_map, h]
  · intro n
    constructor
    · rintro ⟨b, hb, rfl⟩
      have h1 : b &&& MASK ≤ MASK := Nat.and_le_right
      exact ⟨by omega, and_MASK_idem b⟩
    · rintro ⟨h1, h2⟩
      exact ⟨n, by omega, h2⟩

/-- Witness for C6 (amended) at a concrete 12-byte input. -/
theorem C6_uid_properties_witness :
    (generateUid [0, 0, 0, 0, 0, 0, 0, 0, 0, 0, 0, 0]).length = 12
    ∧ (generateUid [0, 0, 0, 0, 0, 0, 0, 0, 0, 0, 0, 0]).data
        = [0, 0, 0, 0, 0, 0, 0, 0, 0, 0, 0, 0].map (fun b => charset.getD (b &&& MASK) '?') :=
  ⟨(C6_uid_properties [0, 0, 0, 0, 0, 0, 0, 0, 0, 0, 0, 0] rfl).1,
   (C6_uid_properties [0, 0, 0, 0, 0, 0, 0, 0, 0, 0, 0, 0] rfl).2.1⟩

/-- C7: setOption writes only at the instance level — the written key
reads back, the defaults map is untouched, a sibling instance is not
affected by the write (a fresh sibling still reads the shared defaults),
and every key absent at the instance level falls through to the defaults
map. -/
theorem C7_options_layering (s t : OptStore) (k q : String) (v : JVal)
    (hq : lookupAssoc (setOption s k v).own q = none) :
    readOption (setOption s k v) k = some v
    ∧ (setOption s k v).defaults = s.defaults
    ∧ (setOptionFst (s, t) k v).2 = t
    ∧ readOption newInstanceOptions k = lookupAssoc defaultOptions k
    ∧ readOption (setOption s k v) q = lookupAssoc s.defaults q := by
  refine ⟨?_, rfl, rfl, ?_, ?_⟩
  · simp only [readOption, setOption, lookupAssoc_setAssoc_self]
  · show (match lookupAssoc ([] : List (String × JVal)) k with
          | some w => some w
          | none => lookupAssoc defaultOptions k) = lookupAssoc defaultOptions k
    rfl
  · have hq2 : lookupAssoc (setAssoc s.own k v) q = none := hq
    simp only [readOption, setOption, hq2]

/-- Witness for C7 at concrete instance states. -/
theorem C7_options_layering_witness :
    readOption (setOption newInstanceOptions "k" (JVal.str "v")) "k" = some (JVal.str "v")
    ∧ (setOption newInstanceOptions "k" (JVal.str "v")).defaults = newInstanceOptions.defaults
    ∧ readOption (setOption newInstanceOptions "k" (JVal.str "v")) "absent"
        = lookupAssoc newInstanceOptions.defaults "absent" :=
  ⟨(C7_options_layering newInstanceOptions newInstanceOptions "k" "absent"
      (JVal.str "v") (by decide)).1,
   (C7_options_layering newInstanceOptions newInstanceOptions "k" "absent"
      (JVal.str "v") (by decide)).2.1,
   (C7_options_layering newInstanceOptions newInstanceOptions "k" "absent"
      (JVal.str "v") (by decide)).2.2.2.2⟩

/-- Draining the timer queue appends one changed event per queued task,
in scheduling order, and changes nothing else. -/
theorem foldl_runTimer (ts : List AttrChange) :
    ∀ s0 : AState,
      ts.foldl runTimer s0 = { s0 with events := s0.events ++ ts.map AEv.changed } := by
  induction ts with
  | nil => intro s0; simp
  | cons c t ih =>
    intro s0
    simp [runTimer, ih, List.append_assoc]

/-- The macro tick after the synchronous stack: every queued changed
publish fires, in order; options are untouched. -/
theorem drainTimers_spec (s : AState) :
    drainTimers s =
      { options := s.options, events := s.events ++ s.timers.map AEv.changed,
        timers := [] } := by
  unfold drainTimers
  rw [foldl_runTimer]

/-- C8: two attribute mutations signalled synchronously in the same call
stack publish no changed event during that stack (only their two
attribute.changed publishes), queue exactly one timer task each, and the
following macro tick publishes exactly two changed events — one per
mutation, in mutation order, never coalesced — strictly after the
synchronous events. -/
theorem C8_deferred_changed (s : AState) (h : s.timers = []) (n1 n2 : String)
    (o1 v1 o2 v2 : Option String) :
    (attributeChangedCallback (attributeChangedCallback s n1 o1 v1) n2 o2 v2).events
        = s.events ++ [AEv.attributeChanged ⟨n1, o1, v1⟩, AEv.attributeChanged ⟨n2, o2, v2⟩]
    ∧ (attributeChangedCallback (attributeChangedCallback s n1 o1 v1) n2 o2 v2).timers
        = [⟨n1, o1, v1⟩, ⟨n2, o2, v2⟩]
    ∧ (drainTimers
        (attributeChangedCallback (attributeChangedCallback s n1 o1 v1) n2 o2 v2)).events
        = s.events ++ [AEv.attributeChanged ⟨n1, o1, v1⟩, AEv.attributeChanged ⟨n2, o2, v2⟩,
                       AEv.changed ⟨n1, o1, v1⟩, AEv.changed ⟨n2, o2, v2⟩] := by
  refine ⟨?_, ?_, ?_⟩
  · simp [attributeChangedCallback, processAttributeChanged, List.append_assoc]
  · simp [attributeChangedCallback, processAttributeChanged, h]
  · rw [drainTimers_spec]
    simp [attributeChangedCallback, processAttributeChanged, h, List.append_assoc]

/-- Witness for C8 with two concrete mutations on a fresh state. -/
theorem C8_deferred_changed_witness :
    (attributeChangedCallback (attributeChangedCallback a0 "p" none (some "1"))
        "q" none (some "2")).events
      = [AEv.attributeChanged ⟨"p", none, some "1"⟩, AEv.attributeChanged ⟨"q", none, some "2"⟩]
    ∧ (drainTimers (attributeChangedCallback (attributeChangedCallback a0 "p" none (some "1"))
        "q" none (some "2"))).events
      = [AEv.attributeChanged ⟨"p", none, some "1"⟩, AEv.attributeChanged ⟨"q", none, some "2"⟩,
         AEv.changed ⟨"p", none, some "1"⟩, AEv.changed ⟨"q", none, some "2"⟩] :=
  ⟨(C8_deferred_changed a0 rfl "p" "q" none (some "1") none (some "2")).1,
   (C8_deferred_changed a0 rfl "p" "q" none (some "1") none (some "2")).2.2⟩

/-- C9: the debug option is monotone under the attribute-change entry
point — once true it remains true after any further attribute change,
including the full deferred tick (removing the debug attribute gives a
falsy new value and writes nothing); and a truthy new value on the debug
attribute sets the option to true. -/
theorem C9_debug_monotone (s : AState) (n : String) (o v : Option String) :
    (lookupAssoc s.options "debug" = some (JVal.bool true) →
      lookupAssoc (drainTimers (attributeChangedCallback s n o v)).options "debug"
        = some (JVal.bool true))
    ∧ (n = "debug" → truthy v = true →
      lookupAssoc (attributeChangedCallback s n o v).options "debug"
        = some (JVal.bool true)) := by
  have hopt : (attributeChangedCallback s n o v).options
      = (if n == "debug" && truthy v then
          setAssoc s.options "debug" (JVal.bool true)
        else s.options) := rfl
  constructor
  · intro hs
    have hd : (drainTimers (attributeChangedCallback s n o v)).options
        = (attributeChangedCallback s n o v).options := by rw [drainTimers_spec]
    rw [hd, hopt]
    by_cases hc : (n == "debug" && truthy v) = true
    · rw [if_pos hc, lookupAssoc_setAssoc_self]
    · rw [if_neg hc]
      exact hs
  · intro hn hv
    subst hn
    rw [hopt]
    have hc : ("debug" == "debug" && truthy v) = true := by simp [hv]
    rw [if_pos hc, lookupAssoc_setAssoc_self]

/-- Witness for C9: preservation on a state with debug already true, and
setting on a truthy debug mutation. -/
theorem C9_debug_monotone_witness :
    lookupAssoc (drainTimers (attributeChangedCallback dbgState "other" (some "1") none)).options
        "debug" = some (JVal.bool true)
    ∧ lookupAssoc (attributeChangedCallback a0 "debug" none (some "x")).options "debug"
        = some (JVal.bool true) :=
  ⟨(C9_debug_monotone dbgState "other" (some "1") none).1 (by decide),
   (C9_debug_monotone a0 "debug" none (some "x")).2 rfl (by decide)⟩

end BestApps
